import Mathlib

/-!
# Verification of the jobly SQL-builder utilities

Shallow embedding of the SQL-clause builders of the express-jobly
repository:

* `sqlForPartialUpdate` from `src/helpers/sql.js` (the spec's
  `buildSetClause`);
* `Job.sqlForFiltering` from `src/models/job.js` (the job variant of the
  spec's `buildWhereClause`);
* `Company.sqlForFiltering` from `src/models/company.js`;
* the helper-level `sqlForFiltering` from `src/helpers/sql.js`.

JavaScript objects are modelled as association lists in key-insertion
order (`Obj`), matching the iteration order of `Object.keys` /
`Object.values` for string keys.  JavaScript values flowing through
these functions are modelled by `JsVal`.  In-place mutation of a
caller-supplied object (the source mutates `dataToFilter`) is modelled
by explicit state passing: each filtering function returns the result
together with the post-call contents of the caller's object.
-/

set_option autoImplicit false

universe u v

/-- A JavaScript value as used by the SQL builders: strings, numbers,
booleans and null.  The builders never do arithmetic, so numbers are
modelled as integers. -/
inductive JsVal : Type where
  | str (s : String)
  | num (n : Int)
  | bool (b : Bool)
  | null
deriving DecidableEq

/-- A JavaScript object: an association list of string keys to values,
in key-insertion order (the iteration order of `Object.keys` for
string keys). -/
abbrev Obj : Type := List (String × JsVal)

/-- `Object.keys(o)`: the keys in insertion order. -/
def objKeys (o : Obj) : List String := o.map Prod.fst

/-- `Object.values(o)`: the values in insertion order. -/
def objValues (o : Obj) : List JsVal := o.map Prod.snd

/-- Property read `o[k]`: `some v` when the key is present, `none` for
JavaScript `undefined`. -/
def lookupObj (o : Obj) (k : String) : Option JsVal :=
  match o with
  | [] => none
  | (k₁, v₁) :: rest => if k₁ = k then some v₁ else lookupObj rest k

/-- Property write `o[k] = v`: updates the value in place when the key
exists (keeping its position), otherwise appends the new entry. -/
def setObj (o : Obj) (k : String) (v : JsVal) : Obj :=
  match o with
  | [] => [(k, v)]
  | (k₁, v₁) :: rest =>
      if k₁ = k then (k, v) :: rest else (k₁, v₁) :: setObj rest k v

/-- Property deletion `delete o[k]`: removes the entry with the given
key (object keys are unique, so at most one entry matches). -/
def eraseObj (o : Obj) (k : String) : Obj :=
  match o with
  | [] => []
  | (k₁, v₁) :: rest =>
      if k₁ = k then rest else (k₁, v₁) :: eraseObj rest k

/-- JavaScript truthiness of a value (`""`, `0`, `false` and `null` are
falsy). -/
def jsTruthy : JsVal → Bool
  | JsVal.str s => s != ""
  | JsVal.num n => n != 0
  | JsVal.bool b => b
  | JsVal.null => false

/-- Stringification of a value inside a template literal. -/
def jsDisplay : JsVal → String
  | JsVal.str s => s
  | JsVal.num n => toString n
  | JsVal.bool true => "true"
  | JsVal.bool false => "false"
  | JsVal.null => "null"

/-- Stringification of a possibly-`undefined` property read inside a
template literal. -/
def jsDisplayOpt : Option JsVal → String
  | some v => jsDisplay v
  | none => "undefined"

/-- `xs.map((x, idx) => f(idx, x))` starting the index at `i`. -/
def mapIdxFrom {α : Type u} {β : Type v} (f : Nat → α → β) : Nat → List α → List β
  | _, [] => []
  | i, a :: rest => f i a :: mapIdxFrom f (i + 1) rest

/-- JavaScript `Array.prototype.map` with the element index. -/
def jsMapIdx {α : Type u} {β : Type v} (f : Nat → α → β) (l : List α) : List β :=
  mapIdxFrom f 0 l

/-- JavaScript `Array.prototype.join`: elements that are `undefined`
are converted to the empty string before joining. -/
def joinJs (sep : String) (l : List (Option String)) : String :=
  String.intercalate sep (l.map (fun o => o.getD ""))

/-- The column-name resolution `jsToSql[colName] || colName` of
`sqlForPartialUpdate`, as stringified by the surrounding template
literal: a truthy mapped value wins, any falsy mapped value (or a
missing entry, i.e. `undefined`) falls back to the field name. -/
def resolveColumn (jsToSql : Obj) (colName : String) : String :=
  match lookupObj jsToSql colName with
  | some v => if jsTruthy v then jsDisplay v else colName
  | none => colName

/-- One fragment `"col"=$N` emitted by `sqlForPartialUpdate` for the
key at 0-based index `idx`. -/
def updateFragment (jsToSql : Obj) (idx : Nat) (colName : String) : String :=
  "\"" ++ resolveColumn jsToSql colName ++ "\"=$" ++ toString (idx + 1)

/-- `sqlForPartialUpdate(dataToUpdate, jsToSql)` from
`src/helpers/sql.js`: throws `BadRequestError("No data")` on an empty
object, otherwise returns `setCols` (the fragments joined by `", "`)
and `values` (`Object.values(dataToUpdate)`). -/
def sqlForPartialUpdate (dataToUpdate : Obj) (jsToSql : Obj) :
    Except String (String × List JsVal) :=
  let keys := objKeys dataToUpdate
  if keys.isEmpty then Except.error "No data"
  else
    let cols := jsMapIdx (fun idx colName => updateFragment jsToSql idx colName) keys
    Except.ok (String.intercalate ", " cols, objValues dataToUpdate)

example :
    sqlForPartialUpdate
      [("firstName", JsVal.str "Aliya"), ("age", JsVal.num 32)]
      [("firstName", JsVal.str "first_name"), ("age", JsVal.str "age")] =
    Except.ok ("\"first_name\"=$1, \"age\"=$2", [JsVal.str "Aliya", JsVal.num 32]) := by
  rfl

/-- The `{whereClause, values}` pair returned by the filtering
builders. -/
structure FilterResult : Type where
  whereClause : String
  values : List JsVal
deriving DecidableEq

/-- The body of the `keys.map((colName, idx) => ...)` loop of
`Job.sqlForFiltering` in `src/models/job.js`.  The callback mutates
`dataToFilter` (it rewrites `titleLike` with wildcard markers), so the
object is threaded through the loop; a `none` element records an
iteration that returned JavaScript `undefined` (an unrecognized key,
or `hasEquity` whose value is not strictly `true`). -/
def jobFilterLoop : Obj → List String → Nat → List (Option String) × Obj
  | d, [], _ => ([], d)
  | d, colName :: rest, idx =>
    if colName = "titleLike" then
      let d₁ := setObj d "titleLike"
        (JsVal.str ("%" ++ jsDisplayOpt (lookupObj d "titleLike") ++ "%"))
      let (cols, d₂) := jobFilterLoop d₁ rest (idx + 1)
      (some ("title ILIKE $" ++ toString (idx + 1)) :: cols, d₂)
    else if colName = "minSalary" then
      let (cols, d₂) := jobFilterLoop d rest (idx + 1)
      (some ("salary >= $" ++ toString (idx + 1)) :: cols, d₂)
    else if colName = "hasEquity" ∧ lookupObj d "hasEquity" = some (JsVal.bool true) then
      let (cols, d₂) := jobFilterLoop d rest (idx + 1)
      (some "equity IS NOT NULL AND equity != 0" :: cols, d₂)
    else
      let (cols, d₂) := jobFilterLoop d rest (idx + 1)
      (none :: cols, d₂)

/-- `Job.sqlForFiltering(dataToFilter)` from `src/models/job.js`.  The
input is `none` when the caller passes `undefined`.  Returns the
`{whereClause, values}` result together with the post-call contents of
the caller's `dataToFilter` object (the source mutates it in place:
it deletes a strictly-`false` `hasEquity` up front, rewrites
`titleLike` with wildcard markers inside the loop, and deletes
`hasEquity` again before reading `Object.values`). -/
def Job.sqlForFiltering (dataToFilter : Option Obj) : FilterResult × Option Obj :=
  match dataToFilter with
  | none => ({ whereClause := "", values := [] }, none)
  | some d₀ =>
    let d₁ := if lookupObj d₀ "hasEquity" = some (JsVal.bool false)
              then eraseObj d₀ "hasEquity" else d₀
    let keys := objKeys d₁
    if keys.isEmpty then ({ whereClause := "", values := [] }, some d₁)
    else
      let r := jobFilterLoop d₁ keys 0
      let whereClause :=
        if r.1.length > 0 then "\nWHERE " ++ joinJs " AND " r.1 else ""
      let d₃ := eraseObj r.2 "hasEquity"
      ({ whereClause := whereClause, values := objValues d₃ }, some d₃)

/-- The body of the `keys.map((colName, idx) => ...)` loop shared by
`Company.sqlForFiltering` in `src/models/company.js` and
`sqlForFiltering` in `src/helpers/sql.js` (their branches are
identical: `nameLike`, `minEmployees`, `maxEmployees`).  The callback
rewrites `nameLike` with wildcard markers inside the caller's object,
so the object is threaded through the loop. -/
def companyFilterLoop : Obj → List String → Nat → List (Option String) × Obj
  | d, [], _ => ([], d)
  | d, colName :: rest, idx =>
    if colName = "nameLike" then
      let d₁ := setObj d "nameLike"
        (JsVal.str ("%" ++ jsDisplayOpt (lookupObj d "nameLike") ++ "%"))
      let (cols, d₂) := companyFilterLoop d₁ rest (idx + 1)
      (some ("name ILIKE $" ++ toString (idx + 1)) :: cols, d₂)
    else if colName = "minEmployees" then
      let (cols, d₂) := companyFilterLoop d rest (idx + 1)
      (some ("num_employees >= $" ++ toString (idx + 1)) :: cols, d₂)
    else if colName = "maxEmployees" then
      let (cols, d₂) := companyFilterLoop d rest (idx + 1)
      (some ("num_employees <= $" ++ toString (idx + 1)) :: cols, d₂)
    else
      let (cols, d₂) := companyFilterLoop d rest (idx + 1)
      (none :: cols, d₂)

/-- `Company.sqlForFiltering(dataToFilter)` from
`src/models/company.js`: like the job variant but with the company
keys and no `hasEquity` special-casing. -/
def Company.sqlForFiltering (dataToFilter : Option Obj) : FilterResult × Option Obj :=
  match dataToFilter with
  | none => ({ whereClause := "", values := [] }, none)
  | some d₀ =>
    let keys := objKeys d₀
    if keys.isEmpty then ({ whereClause := "", values := [] }, some d₀)
    else
      let r := companyFilterLoop d₀ keys 0
      let whereClause :=
        if r.1.length > 0 then "\nWHERE " ++ joinJs " AND " r.1 else ""
      ({ whereClause := whereClause, values := objValues r.2 }, some r.2)

/-- `sqlForFiltering(dataToFilter)` from `src/helpers/sql.js`: the
helper-level variant.  On an absent or empty input it executes a bare
`return`, i.e. it produces JavaScript `undefined` (modelled as `none`)
rather than an empty `{whereClause, values}` pair; otherwise it joins
the fragments with `" AND "` and adds no `WHERE` keyword. -/
def sqlForFiltering (dataToFilter : Option Obj) : Option FilterResult × Option Obj :=
  match dataToFilter with
  | none => (none, none)
  | some d₀ =>
    let keys := objKeys d₀
    if keys.isEmpty then (none, some d₀)
    else
      let r := companyFilterLoop d₀ keys 0
      (some { whereClause := joinJs " AND " r.1, values := objValues r.2 }, some r.2)

theorem mapIdxFrom_length {α : Type u} {β : Type v} (f : Nat → α → β) (i : Nat)
    (l : List α) : (mapIdxFrom f i l).length = l.length := by
  induction l generalizing i with
  | nil => rfl
  | cons a rest ih => simp [mapIdxFrom, ih]

theorem mapIdxFrom_get? {α : Type u} {β : Type v} (f : Nat → α → β) (i j : Nat)
    (l : List α) :
    (mapIdxFrom f i l).get? j = (l.get? j).map (fun a => f (i + j) a) := by
  induction l generalizing i j with
  | nil => simp [mapIdxFrom]
  | cons a rest ih =>
    cases j with
    | zero => simp [mapIdxFrom]
    | succ j =>
      have harith : i + 1 + j = i + (j + 1) := by omega
      simp only [mapIdxFrom, List.get?_cons_succ, ih (i + 1) j, harith]

theorem objKeys_ne_nil_of_ne_nil {d : Obj} (h : d ≠ []) :
    (objKeys d).isEmpty = false := by
  cases d with
  | nil => exact absurd rfl h
  | cons a rest => rfl

/-- On a non-empty input, `sqlForPartialUpdate` returns the indexed
fragments over the keys, joined by `", "`, and the input values. -/
theorem sqlForPartialUpdate_ok (d js : Obj) (h : d ≠ []) :
    sqlForPartialUpdate d js =
      Except.ok
        (String.intercalate ", "
          (jsMapIdx (fun idx colName => updateFragment js idx colName) (objKeys d)),
         d.map Prod.snd) := by
  simp [sqlForPartialUpdate, objKeys_ne_nil_of_ne_nil h, objValues]


/-- Claim C2: for every non-empty `updateFields` mapping and every
`columnNameMap`, the set-clause builder (`sqlForPartialUpdate`, the
spec's `buildSetClause`) returns a clause text that is exactly
`length(updateFields)` fragments joined by `", "`, where the fragment
at 0-based position `j` is `"column"=$\(j+1)` for the key at position
`j` in iteration order, and an `orderedValues` list equal to the input
values in the same iteration order — so placeholder `$i` binds the
`i`-th value of `updateFields`. -/
theorem sqlForPartialUpdate_correct (d js : Obj) (h : d ≠ []) :
    ∃ frags : List String,
      sqlForPartialUpdate d js =
        Except.ok (String.intercalate ", " frags, d.map Prod.snd) ∧
      frags.length = d.length ∧
      ∀ j : Nat, frags.get? j =
        ((objKeys d).get? j).map (fun colName => updateFragment js j colName) := by
  refine ⟨jsMapIdx (fun idx colName => updateFragment js idx colName) (objKeys d),
    sqlForPartialUpdate_ok d js h, ?_, ?_⟩
  · rw [jsMapIdx, mapIdxFrom_length, objKeys, List.length_map]
  · intro j
    rw [jsMapIdx, mapIdxFrom_get?]
    simp

/-- Claim C2 witness: the theorem instantiated at the repository's own
test input `({firstName: "Aliya", age: 32}, {firstName: "first_name",
age: "age"})`. -/
theorem sqlForPartialUpdate_correct_witness :
    ([("firstName", JsVal.str "Aliya"), ("age", JsVal.num 32)] : Obj) ≠ [] ∧
    ∃ frags : List String,
      sqlForPartialUpdate [("firstName", JsVal.str "Aliya"), ("age", JsVal.num 32)]
          [("firstName", JsVal.str "first_name"), ("age", JsVal.str "age")] =
        Except.ok (String.intercalate ", " frags,
          ([("firstName", JsVal.str "Aliya"), ("age", JsVal.num 32)] : Obj).map Prod.snd) ∧
      frags.length = ([("firstName", JsVal.str "Aliya"), ("age", JsVal.num 32)] : Obj).length ∧
      ∀ j : Nat, frags.get? j =
        ((objKeys [("firstName", JsVal.str "Aliya"), ("age", JsVal.num 32)]).get? j).map
          (fun colName =>
            updateFragment [("firstName", JsVal.str "first_name"), ("age", JsVal.str "age")]
              j colName) :=
  ⟨by decide, sqlForPartialUpdate_correct _ _ (by decide)⟩

/-- Claim C7: `sqlForPartialUpdate` (the spec's `buildSetClause`)
fails with the "no data supplied" error (`BadRequestError("No data")`)
when `updateFields` is empty, for every `columnNameMap`, and the empty
mapping is the only input on which it fails. -/
theorem sqlForPartialUpdate_empty_fails (d js : Obj) :
    (d = [] → sqlForPartialUpdate d js = Except.error "No data") ∧
    (∀ e : String, sqlForPartialUpdate d js = Except.error e → d = []) := by
  constructor
  · intro h
    subst h
    rfl
  · intro e he
    cases d with
    | nil => rfl
    | cons a rest => simp [sqlForPartialUpdate, objKeys] at he

/-- Claim C7 witness: the theorem instantiated at the empty mapping
and the empty column-name map. -/
theorem sqlForPartialUpdate_empty_fails_witness :
    sqlForPartialUpdate [] [] = Except.error "No data" :=
  (sqlForPartialUpdate_empty_fails [] []).1 rfl

/-- Claim C9: for any two non-empty `updateFields` mappings with the
same key sequence and the same `columnNameMap`, `sqlForPartialUpdate`
returns the identical clause text: the input values influence only the
returned value list and are never interpolated into the clause
text. -/
theorem sqlForPartialUpdate_text_depends_only_on_keys (d₁ d₂ js : Obj)
    (hk : objKeys d₁ = objKeys d₂) (h₁ : d₁ ≠ []) :
    ∃ (text : String) (vals₁ vals₂ : List JsVal),
      sqlForPartialUpdate d₁ js = Except.ok (text, vals₁) ∧
      sqlForPartialUpdate d₂ js = Except.ok (text, vals₂) := by
  have h₂ : d₂ ≠ [] := by
    intro h
    subst h
    cases d₁ with
    | nil => exact h₁ rfl
    | cons a rest => simp [objKeys] at hk
  refine ⟨String.intercalate ", "
      (jsMapIdx (fun idx colName => updateFragment js idx colName) (objKeys d₁)),
    d₁.map Prod.snd, d₂.map Prod.snd, sqlForPartialUpdate_ok d₁ js h₁, ?_⟩
  rw [sqlForPartialUpdate_ok d₂ js h₂, hk]

/-- Claim C9 witness: two single-key mappings for `title` whose values
differ (one of them hostile) produce the same clause text. -/
theorem sqlForPartialUpdate_text_depends_only_on_keys_witness :
    objKeys [("title", JsVal.str "a")] =
      objKeys [("title", JsVal.str "x; DROP TABLE jobs")] ∧
    ([("title", JsVal.str "a")] : Obj) ≠ [] ∧
    ∃ (text : String) (vals₁ vals₂ : List JsVal),
      sqlForPartialUpdate [("title", JsVal.str "a")] [] = Except.ok (text, vals₁) ∧
      sqlForPartialUpdate [("title", JsVal.str "x; DROP TABLE jobs")] [] =
        Except.ok (text, vals₂) :=
  ⟨by decide, by decide,
    sqlForPartialUpdate_text_depends_only_on_keys _ _ _ (by decide) (by decide)⟩

/-- Claim C10: the fallback `jsToSql[colName] || colName` triggers for
every falsy mapped value, not only a missing entry: when the
column-name map sends the key at position `j` to a falsy value (such
as the empty string), the emitted fragment quotes the field name
verbatim as the column name. -/
theorem sqlForPartialUpdate_falsy_fallback (d js : Obj) (j : Nat) (k : String)
    (w : JsVal) (hj : (objKeys d).get? j = some k)
    (hw : lookupObj js k = some w) (hfalsy : jsTruthy w = false) :
    ∃ frags : List String,
      sqlForPartialUpdate d js =
        Except.ok (String.intercalate ", " frags, d.map Prod.snd) ∧
      frags.get? j = some ("\"" ++ k ++ "\"=$" ++ toString (j + 1)) := by
  have hne : d ≠ [] := by
    intro h
    subst h
    simp [objKeys] at hj
  refine ⟨jsMapIdx (fun idx colName => updateFragment js idx colName) (objKeys d),
    sqlForPartialUpdate_ok d js hne, ?_⟩
  rw [jsMapIdx, mapIdxFrom_get?, hj]
  simp [updateFragment, resolveColumn, hw, hfalsy]

/-- Claim C10 witness: the theorem instantiated at a single-entry
mapping whose column-name map sends the field to the empty string. -/
theorem sqlForPartialUpdate_falsy_fallback_witness :
    (objKeys [("numEmployees", JsVal.num 5)]).get? 0 = some "numEmployees" ∧
    lookupObj [("numEmployees", JsVal.str "")] "numEmployees" = some (JsVal.str "") ∧
    jsTruthy (JsVal.str "") = false ∧
    ∃ frags : List String,
      sqlForPartialUpdate [("numEmployees", JsVal.num 5)]
          [("numEmployees", JsVal.str "")] =
        Except.ok (String.intercalate ", " frags,
          ([("numEmployees", JsVal.num 5)] : Obj).map Prod.snd) ∧
      frags.get? 0 = some ("\"" ++ "numEmployees" ++ "\"=$" ++ toString (0 + 1)) :=
  ⟨by decide, by decide, by decide,
    sqlForPartialUpdate_falsy_fallback [("numEmployees", JsVal.num 5)]
      [("numEmployees", JsVal.str "")] 0 "numEmployees" (JsVal.str "")
      (by decide) (by decide) (by decide)⟩

/-- Claim C1: refuted on the source.  The placeholder counter of
`Job.sqlForFiltering` is the key index in the input mapping, not a
count of emitted bound fragments, so a boolean-trigger fragment (which
binds no value) shifts later placeholder numbers.  For the input
`{hasEquity: true, minSalary: 100000}` the generated clause references
only `$2` while `values` holds a single element and `$1` is never
emitted: numbering is not contiguous from 1 and `orderedValues[0]` is
not bound to `$1`. -/
theorem jobFilter_placeholder_gap :
    Job.sqlForFiltering
      (some [("hasEquity", JsVal.bool true), ("minSalary", JsVal.num 100000)]) =
    ({ whereClause := "\nWHERE equity IS NOT NULL AND equity != 0 AND salary >= $2",
       values := [JsVal.num 100000] },
     some [("minSalary", JsVal.num 100000)]) := by
  decide

/-- Claim C3: refuted on the source.  No filtering builder raises a
"bad filter key" error.  The helper-level `sqlForFiltering` maps an
unrecognized key to a JavaScript `undefined` fragment, which
`Array.prototype.join` silently converts to an empty string while the
key's value stays in the bound-value list; `Job.sqlForFiltering` does
the same and additionally emits a dangling `WHERE ` keyword.  The
input `{randomQueryString: "ingored"}` is taken from the repository's
own route test. -/
theorem filter_unrecognized_key_not_rejected :
    sqlForFiltering (some [("wrong", JsVal.str "nope")]) =
      (some { whereClause := "", values := [JsVal.str "nope"] },
       some [("wrong", JsVal.str "nope")]) ∧
    Job.sqlForFiltering (some [("randomQueryString", JsVal.str "ingored")]) =
      ({ whereClause := "\nWHERE ", values := [JsVal.str "ingored"] },
       some [("randomQueryString", JsVal.str "ingored")]) := by
  decide

/-- Claim C4: refuted on the source.  `Job.sqlForFiltering` mutates
the caller's mapping — it rewrites `titleLike` with wildcard markers
in place — so after a call on `{titleLike: "2"}` the caller's mapping
holds `{titleLike: "%2%"}`, and a second call on the same mapping
returns a different result (the bound value becomes `"%%2%%"`). -/
theorem jobFilter_mutates_and_not_idempotent :
    (Job.sqlForFiltering (some [("titleLike", JsVal.str "2")])).2 ≠
      some [("titleLike", JsVal.str "2")] ∧
    (Job.sqlForFiltering
        ((Job.sqlForFiltering (some [("titleLike", JsVal.str "2")])).2)).1 ≠
      (Job.sqlForFiltering (some [("titleLike", JsVal.str "2")])).1 := by
  decide

/-- Claim C5 counterexample: as stated the claim is false — on the
input `{titleLike: "2", minSalary: 100000, hasEquity: true}` the
clause text produced by `Job.sqlForFiltering` is not the claimed
string, because the source prefixes the fragments with `"\nWHERE "`
(a leading newline before the keyword), exactly as the repository's
own test expects. -/
theorem jobFilter_c5_as_stated_false :
    (Job.sqlForFiltering
      (some [("titleLike", JsVal.str "2"), ("minSalary", JsVal.num 100000),
             ("hasEquity", JsVal.bool true)])).1 ≠
    { whereClause :=
        "WHERE title ILIKE $1 AND salary >= $2 AND equity IS NOT NULL AND equity != 0",
      values := [JsVal.str "%2%", JsVal.num 100000] } := by
  decide

/-- Claim C5 as amended: on the input `{titleLike: "2", minSalary:
100000, hasEquity: true}`, `Job.sqlForFiltering` returns the clause
text `"\nWHERE title ILIKE $1 AND salary >= $2 AND equity IS NOT NULL
AND equity != 0"` (leading newline before `WHERE`) with bound values
`["%2%", 100000]`: the partial-match value is wrapped in wildcard
markers before binding, and the true-valued boolean trigger key
contributes a literal fragment but zero bound values. -/
theorem jobFilter_c5_amended :
    (Job.sqlForFiltering
      (some [("titleLike", JsVal.str "2"), ("minSalary", JsVal.num 100000),
             ("hasEquity", JsVal.bool true)])).1 =
    { whereClause :=
        "\nWHERE title ILIKE $1 AND salary >= $2 AND equity IS NOT NULL AND equity != 0",
      values := [JsVal.str "%2%", JsVal.num 100000] } := by
  decide

/-- Claim C6: for the input `{hasEquity: false}`, `Job.sqlForFiltering`
returns an empty clause text and an empty value list — a
boolean-trigger key whose value is not the trigger value is skipped
entirely: no fragment, no placeholder, nothing in the bound values
(the source deletes the strictly-`false` `hasEquity` before building
anything). -/
theorem jobFilter_hasEquity_false_skipped :
    (Job.sqlForFiltering (some [("hasEquity", JsVal.bool false)])).1 =
    { whereClause := "", values := [] } := by
  decide

/-- Claim C8: refuted on the helper-level source.  For an absent
(`undefined`) input and for an empty mapping, the model-layer builders
(`Job.sqlForFiltering`, `Company.sqlForFiltering`) do return the
defined pair `{whereClause: "", values: []}`, but the helper-level
`sqlForFiltering` of `src/helpers/sql.js` executes a bare `return` and
yields JavaScript `undefined` — an absent result, which the model
layer's own doc comment marks with a TODO to fix. -/
theorem filter_absent_and_empty_input :
    (sqlForFiltering none).1 = none ∧
    (sqlForFiltering (some [])).1 = none ∧
    (Job.sqlForFiltering none).1 = { whereClause := "", values := [] } ∧
    (Job.sqlForFiltering (some [])).1 = { whereClause := "", values := [] } ∧
    (Company.sqlForFiltering none).1 = { whereClause := "", values := [] } ∧
    (Company.sqlForFiltering (some [])).1 = { whereClause := "", values := [] } := by
  decide
